import Mathlib

/-!
Verification of the frame-geometry layer (`src/frame.rs`): the `Frame`
aggregate with its two construction paths, `new_with_padding` (allocating)
and `new_zerocopy` (buffer-aliasing).  The collaborators `ChromaSampling`,
`Plane` and the `align_power_of_two` helper live outside the provided
source excerpt; they are modelled from the specification's contracts for
them.  Machine integers (`usize`) are modelled as `Nat`; the sample byte
width `size_of::<T>()` is an explicit parameter `sb`.
-/

namespace VFrame

/-- Modelled from the spec: the `ChromaSampling` enumeration (not in the
source excerpt), "a closed enumeration of subsampling formats, at minimum
{monochrome, 4:2:0, 4:2:2, 4:4:4}"; `Cs400` is the monochrome format, the
name used by `frame.rs`. -/
inductive ChromaSampling
  | Cs420
  | Cs422
  | Cs444
  | Cs400
deriving DecidableEq, Repr

/-- Modelled from the spec: `ChromaSampling::get_decimation` (not in the
source excerpt) returns the optional pair of (horizontal, vertical)
decimation right-shift exponents, `none` exactly for the monochrome
format.  4:2:0 halves both axes, 4:2:2 halves only horizontally, 4:4:4
decimates neither axis. -/
def ChromaSampling.get_decimation : ChromaSampling → Option (Nat × Nat)
  | .Cs420 => some (1, 1)
  | .Cs422 => some (1, 0)
  | .Cs444 => some (0, 0)
  | .Cs400 => none

/-- Modelled from the spec: `ChromaSampling::get_chroma_dimensions` (not in
the source excerpt) derives the chroma plane's (width, height) by applying
the decimation exponents to the luma dimensions, "rounded up so that no
sample is lost when luma dimensions are odd"; the monochrome format has
zero-sized chroma. -/
def ChromaSampling.get_chroma_dimensions (cs : ChromaSampling) (w h : Nat) :
    Nat × Nat :=
  match cs.get_decimation with
  | none => (0, 0)
  | some (dx, dy) => ((w + (1 <<< dx) - 1) >>> dx, (h + (1 <<< dy) - 1) >>> dy)

/-- Modelled from the spec: the alignment helper from `crate::math` (not in
the source excerpt), an "align up to power-of-two boundary" operation on
unsigned integers, parameterized by the boundary's log2 (exponent 3 aligns
to 8). -/
def align_power_of_two (x n : Nat) : Nat :=
  ((x + (1 <<< n) - 1) >>> n) <<< n

/-- Modelled from the spec: a plane's backing storage is "either owned
backing storage or a borrowed, caller-supplied buffer".  A borrowed
storage records the externally owned byte region it aliases. -/
inductive PlaneData
  | owned
  | borrowed (bytes : List Nat)
deriving DecidableEq, Repr

/-- Modelled from the spec: the `Plane` collaborator (not in the source
excerpt): "one 2D grid of samples with a physical width/height,
horizontal/vertical decimation factors ..., padding margins ..., and
either owned backing storage or a borrowed, caller-supplied buffer",
together with its row stride. -/
structure Plane where
  data : PlaneData
  width : Nat
  height : Nat
  xdec : Nat
  ydec : Nat
  xpad : Nat
  ypad : Nat
  stride : Nat
deriving DecidableEq, Repr

/-- Modelled from the spec: `Plane::new(width, height, decim_x, decim_y,
pad_x, pad_y)` "producing freshly allocated storage (zero-sized planes are
legal, representing an absent channel)".  The internal layout (stride) of
an allocated plane is left unspecified by the spec and is unused by every
claim; it is recorded as the width for definiteness. -/
def Plane.new (width height xdec ydec xpad ypad : Nat) : Plane :=
  { data := .owned
    width := width
    height := height
    xdec := xdec
    ydec := ydec
    xpad := xpad
    ypad := ypad
    stride := width }

/-- Modelled from the spec: `Plane::from_slice_zerocopy(buffer, stride)`
"producing a Plane whose storage aliases an externally-owned byte region".
`sb` is the sample byte width; the buffer holds `buffer.length / sb`
samples laid out row-major with `stride` samples per row, so the plane
reports width `stride` and height `samples / stride` (the zero-copy
constructor passes the byte length divided exactly).  Decimation, padding
and origin of an aliased plane are zero. -/
def Plane.from_slice_zerocopy (sb : Nat) (buf : List Nat) (stride : Nat) :
    Plane :=
  { data := .borrowed buf
    width := stride
    height := buf.length / sb / stride
    xdec := 0
    ydec := 0
    xpad := 0
    ypad := 0
    stride := stride }

/-- One video frame: exactly three planes, index 0 = luma, indices 1 and 2
= the two chroma channels (`struct Frame` in `frame.rs`). -/
structure Frame where
  planes : Fin 3 → Plane

/-- `Frame::new_with_padding` from `frame.rs`: aligns the luma dimensions
up to a multiple of 8, derives chroma geometry and padding from the
sampling format, and allocates the three planes. -/
def Frame.new_with_padding (width height : Nat)
    (chroma_sampling : ChromaSampling) (luma_padding : Nat) : Frame :=
  let luma_width := align_power_of_two width 3
  let luma_height := align_power_of_two height 3
  let d := (chroma_sampling.get_decimation).getD (0, 0)
  let chroma_decimation_x := d.1
  let chroma_decimation_y := d.2
  let cd := chroma_sampling.get_chroma_dimensions luma_width luma_height
  let chroma_width := cd.1
  let chroma_height := cd.2
  let chroma_padding_x := luma_padding >>> chroma_decimation_x
  let chroma_padding_y := luma_padding >>> chroma_decimation_y
  { planes := fun i =>
      if i = 0 then
        Plane.new luma_width luma_height 0 0 luma_padding luma_padding
      else if i = 1 then
        Plane.new chroma_width chroma_height chroma_decimation_x
          chroma_decimation_y chroma_padding_x chroma_padding_y
      else
        Plane.new chroma_width chroma_height chroma_decimation_x
          chroma_decimation_y chroma_padding_x chroma_padding_y }

/-- The frame built by the monochrome branch of `Frame::new_zerocopy`:
the luma buffer is wrapped in place with stride `luma_width`, and the two
chroma planes are explicit zero-size placeholders. -/
def zerocopyFrameMono (sb : Nat) (data0 : List Nat) (luma_width : Nat) :
    Frame :=
  { planes := fun i =>
      if i = 0 then Plane.from_slice_zerocopy sb data0 luma_width
      else if i = 1 then Plane.new 0 0 0 0 0 0
      else Plane.new 0 0 0 0 0 0 }

/-- The frame built by the non-monochrome branch of `Frame::new_zerocopy`:
all three buffers are wrapped in place, the luma one with stride
`luma_width` and the chroma ones with stride `chroma_width`. -/
def zerocopyFrameChroma (sb : Nat) (data0 data1 data2 : List Nat)
    (luma_width chroma_width : Nat) : Frame :=
  { planes := fun i =>
      if i = 0 then Plane.from_slice_zerocopy sb data0 luma_width
      else if i = 1 then Plane.from_slice_zerocopy sb data1 chroma_width
      else Plane.from_slice_zerocopy sb data2 chroma_width }

/-- `Frame::new_zerocopy` from `frame.rs`: validates the buffer byte
lengths against the geometry implied by `width`, `height` and the sampling
format, then wraps the buffers without copying.  The Rust `assert!`
failures (panics) are modelled as `none`; `sb` is `size_of::<T>()`, and
the byte-to-sample reinterpretation (`transmute`) of a validated buffer
yields `length / sb` samples. -/
def Frame.new_zerocopy (sb : Nat) (data0 data1 data2 : List Nat)
    (width height : Nat) (chroma_sampling : ChromaSampling) : Option Frame :=
  let luma_width := width
  let luma_height := height
  if data0.length = luma_width * luma_height * sb then
    if chroma_sampling = ChromaSampling.Cs400 then
      some (zerocopyFrameMono sb data0 luma_width)
    else
      let cd := chroma_sampling.get_chroma_dimensions luma_width luma_height
      let chroma_width := cd.1
      let chroma_height := cd.2
      if data1.length = chroma_width * chroma_height * sb then
        if data2.length = chroma_width * chroma_height * sb then
          some (zerocopyFrameChroma sb data0 data1 data2 luma_width
            chroma_width)
        else none
      else none
  else none

/-- The property of being the smallest multiple of 8 that is greater than
or equal to `x`. -/
def isLeastMultipleOf8 (x v : Nat) : Prop :=
  8 ∣ v ∧ x ≤ v ∧ ∀ m, 8 ∣ m → x ≤ m → v ≤ m

/-- Two planes agree on width, height, both decimation exponents and both
padding margins. -/
def Plane.sameGeometry (p q : Plane) : Prop :=
  p.width = q.width ∧ p.height = q.height ∧ p.xdec = q.xdec ∧
  p.ydec = q.ydec ∧ p.xpad = q.xpad ∧ p.ypad = q.ypad

/-- A zero-size chroma placeholder: zero width, height, decimation and
padding. -/
def Plane.isZeroSize (p : Plane) : Prop :=
  p.width = 0 ∧ p.height = 0 ∧ p.xdec = 0 ∧ p.ydec = 0 ∧
  p.xpad = 0 ∧ p.ypad = 0

lemma align8_eq (x : Nat) : align_power_of_two x 3 = (x + 8 - 1) / 8 * 8 := by
  unfold align_power_of_two
  norm_num [Nat.shiftLeft_eq, Nat.shiftRight_eq_div_pow]

lemma align8_spec (x : Nat) :
    8 ∣ align_power_of_two x 3 ∧ x ≤ align_power_of_two x 3 ∧
      ∀ m, 8 ∣ m → x ≤ m → align_power_of_two x 3 ≤ m := by
  have e := align8_eq x
  exact ⟨by omega, by omega, fun m h8 hx => by omega⟩

theorem new_zerocopy_eq_some_iff (sb : Nat) (d0 d1 d2 : List Nat) (w h : Nat)
    (cs : ChromaSampling) (f : Frame) :
    Frame.new_zerocopy sb d0 d1 d2 w h cs = some f ↔
      (d0.length = w * h * sb ∧
        ((cs = ChromaSampling.Cs400 ∧ f = zerocopyFrameMono sb d0 w) ∨
          (cs ≠ ChromaSampling.Cs400 ∧
            d1.length = (cs.get_chroma_dimensions w h).1 *
              (cs.get_chroma_dimensions w h).2 * sb ∧
            d2.length = (cs.get_chroma_dimensions w h).1 *
              (cs.get_chroma_dimensions w h).2 * sb ∧
            f = zerocopyFrameChroma sb d0 d1 d2 w
              (cs.get_chroma_dimensions w h).1))) := by
  unfold Frame.new_zerocopy
  by_cases h0 : d0.length = w * h * sb
  · by_cases hcs : cs = ChromaSampling.Cs400
    · subst hcs
      simp [h0, eq_comm]
    · by_cases h1 : d1.length = (cs.get_chroma_dimensions w h).1 *
          (cs.get_chroma_dimensions w h).2 * sb
      · by_cases h2 : d2.length = (cs.get_chroma_dimensions w h).1 *
            (cs.get_chroma_dimensions w h).2 * sb
        · simp [h0, hcs, h1, h2, eq_comm]
        · simp [h0, hcs, h1, h2]
      · simp [h0, hcs, h1]
  · simp [h0]

/-- Claim C1: for every width, height, luma_padding and non-monochrome
sampling format, `new_with_padding` gives a luma plane (index 0) whose
width and height are each the smallest multiple of 8 at least the request,
with decimation (0,0) and padding (luma_padding, luma_padding). -/
theorem new_with_padding_luma_geometry (w h lp : Nat) (cs : ChromaSampling)
    (_hcs : cs ≠ ChromaSampling.Cs400) :
    isLeastMultipleOf8 w ((Frame.new_with_padding w h cs lp).planes 0).width ∧
    isLeastMultipleOf8 h ((Frame.new_with_padding w h cs lp).planes 0).height ∧
    ((Frame.new_with_padding w h cs lp).planes 0).xdec = 0 ∧
    ((Frame.new_with_padding w h cs lp).planes 0).ydec = 0 ∧
    ((Frame.new_with_padding w h cs lp).planes 0).xpad = lp ∧
    ((Frame.new_with_padding w h cs lp).planes 0).ypad = lp := by
  refine ⟨align8_spec w, align8_spec h, rfl, rfl, rfl, rfl⟩

theorem new_with_padding_luma_geometry_witness :
    isLeastMultipleOf8 5 ((Frame.new_with_padding 5 9 ChromaSampling.Cs420 2).planes 0).width ∧
    isLeastMultipleOf8 9 ((Frame.new_with_padding 5 9 ChromaSampling.Cs420 2).planes 0).height ∧
    ((Frame.new_with_padding 5 9 ChromaSampling.Cs420 2).planes 0).xdec = 0 ∧
    ((Frame.new_with_padding 5 9 ChromaSampling.Cs420 2).planes 0).ydec = 0 ∧
    ((Frame.new_with_padding 5 9 ChromaSampling.Cs420 2).planes 0).xpad = 2 ∧
    ((Frame.new_with_padding 5 9 ChromaSampling.Cs420 2).planes 0).ypad = 2 :=
  new_with_padding_luma_geometry 5 9 2 ChromaSampling.Cs420 (by decide)

/-- Claim C2: `new_zerocopy` succeeds exactly when every checked buffer
length matches the expected geometry: the luma buffer must have byte
length `width * height * sb`, and for a non-monochrome format each chroma
buffer must have byte length `chroma_width * chroma_height * sb` with the
chroma dimensions derived from the given width and height; any mismatch
makes the operation fail (modelled `none` for the Rust panic), and in
particular a luma buffer one byte shorter than expected fails. -/
theorem new_zerocopy_succeeds_iff_lengths_match (sb : Nat)
    (d0 d1 d2 : List Nat) (w h : Nat) (cs : ChromaSampling) :
    ((Frame.new_zerocopy sb d0 d1 d2 w h cs).isSome = true ↔
      (d0.length = w * h * sb ∧
        (cs ≠ ChromaSampling.Cs400 →
          d1.length = (cs.get_chroma_dimensions w h).1 *
            (cs.get_chroma_dimensions w h).2 * sb ∧
          d2.length = (cs.get_chroma_dimensions w h).1 *
            (cs.get_chroma_dimensions w h).2 * sb))) ∧
    (d0.length + 1 = w * h * sb →
      (Frame.new_zerocopy sb d0 d1 d2 w h cs).isSome = false) := by
  constructor
  · rw [Option.isSome_iff_exists]
    constructor
    · rintro ⟨f, hf⟩
      rcases (new_zerocopy_eq_some_iff sb d0 d1 d2 w h cs f).mp hf with
        ⟨h0, hrest⟩
      refine ⟨h0, ?_⟩
      rcases hrest with ⟨hcs, -⟩ | ⟨hcs, h1, h2, -⟩
      · intro hne; exact absurd hcs hne
      · intro _; exact ⟨h1, h2⟩
    · rintro ⟨h0, hch⟩
      by_cases hcs : cs = ChromaSampling.Cs400
      · exact ⟨zerocopyFrameMono sb d0 w,
          (new_zerocopy_eq_some_iff sb d0 d1 d2 w h cs _).mpr
            ⟨h0, Or.inl ⟨hcs, rfl⟩⟩⟩
      · rcases hch hcs with ⟨h1, h2⟩
        exact ⟨zerocopyFrameChroma sb d0 d1 d2 w
            (cs.get_chroma_dimensions w h).1,
          (new_zerocopy_eq_some_iff sb d0 d1 d2 w h cs _).mpr
            ⟨h0, Or.inr ⟨hcs, h1, h2, rfl⟩⟩⟩
  · intro hshort
    rcases ho : (Frame.new_zerocopy sb d0 d1 d2 w h cs) with - | f
    · rfl
    · rcases (new_zerocopy_eq_some_iff sb d0 d1 d2 w h cs f).mp ho with ⟨h0, -⟩
      omega

theorem new_zerocopy_succeeds_iff_lengths_match_witness :
    (((Frame.new_zerocopy 1 [7, 7, 7, 7, 7, 7] [9, 9] [9, 9] 3 2
        ChromaSampling.Cs420).isSome = true ↔
      (([7, 7, 7, 7, 7, 7] : List Nat).length = 3 * 2 * 1 ∧
        (ChromaSampling.Cs420 ≠ ChromaSampling.Cs400 →
          ([9, 9] : List Nat).length =
            (ChromaSampling.Cs420.get_chroma_dimensions 3 2).1 *
              (ChromaSampling.Cs420.get_chroma_dimensions 3 2).2 * 1 ∧
          ([9, 9] : List Nat).length =
            (ChromaSampling.Cs420.get_chroma_dimensions 3 2).1 *
              (ChromaSampling.Cs420.get_chroma_dimensions 3 2).2 * 1))) ∧
    (([7, 7, 7, 7, 7, 7] : List Nat).length + 1 = 3 * 2 * 1 →
      (Frame.new_zerocopy 1 [7, 7, 7, 7, 7, 7] [9, 9] [9, 9] 3 2
        ChromaSampling.Cs420).isSome = false)) :=
  new_zerocopy_succeeds_iff_lengths_match 1 [7, 7, 7, 7, 7, 7] [9, 9] [9, 9]
    3 2 ChromaSampling.Cs420

/-- Claim C3 counterexample: at width 4, height 4, luma_padding 1 under the
monochrome format, the chroma planes are zero-sized but their computed
padding is `luma_padding >> 0 = 1`, not 0, so the claim as stated fails. -/
theorem cs400_chroma_padding_not_zero :
    ¬ (((Frame.new_with_padding 4 4 ChromaSampling.Cs400 1).planes 1).width = 0 ∧
       ((Frame.new_with_padding 4 4 ChromaSampling.Cs400 1).planes 1).height = 0 ∧
       ((Frame.new_with_padding 4 4 ChromaSampling.Cs400 1).planes 2).width = 0 ∧
       ((Frame.new_with_padding 4 4 ChromaSampling.Cs400 1).planes 2).height = 0 ∧
       ((Frame.new_with_padding 4 4 ChromaSampling.Cs400 1).planes 1).xpad = 0 ∧
       ((Frame.new_with_padding 4 4 ChromaSampling.Cs400 1).planes 1).ypad = 0 ∧
       ((Frame.new_with_padding 4 4 ChromaSampling.Cs400 1).planes 2).xpad = 0 ∧
       ((Frame.new_with_padding 4 4 ChromaSampling.Cs400 1).planes 2).ypad = 0) := by
  decide

/-- Claim C3 (amended): under the monochrome format `new_with_padding`
gives chroma planes of zero width and height for every request, but their
computed padding equals `luma_padding` on both axes (the decimation
exponents are treated as 0, so `luma_padding >> 0 = luma_padding`), not
zero. -/
theorem cs400_chroma_zero_size_padding_unshifted (w h lp : Nat) :
    ((Frame.new_with_padding w h ChromaSampling.Cs400 lp).planes 1).width = 0 ∧
    ((Frame.new_with_padding w h ChromaSampling.Cs400 lp).planes 1).height = 0 ∧
    ((Frame.new_with_padding w h ChromaSampling.Cs400 lp).planes 2).width = 0 ∧
    ((Frame.new_with_padding w h ChromaSampling.Cs400 lp).planes 2).height = 0 ∧
    ((Frame.new_with_padding w h ChromaSampling.Cs400 lp).planes 1).xpad = lp ∧
    ((Frame.new_with_padding w h ChromaSampling.Cs400 lp).planes 1).ypad = lp ∧
    ((Frame.new_with_padding w h ChromaSampling.Cs400 lp).planes 2).xpad = lp ∧
    ((Frame.new_with_padding w h ChromaSampling.Cs400 lp).planes 2).ypad = lp :=
  ⟨rfl, rfl, rfl, rfl, rfl, rfl, rfl, rfl⟩

/-- Claim C5: for every sampling format, each chroma plane's padding in a
frame from `new_with_padding` equals `luma_padding` right-shifted by that
axis's decimation exponent (with the monochrome format contributing the
placeholder exponents (0,0)), and the computed padding is identical
between the two chroma planes. -/
theorem chroma_padding_eq_shifted_luma_padding (w h lp : Nat)
    (cs : ChromaSampling) :
    ((Frame.new_with_padding w h cs lp).planes 1).xpad =
      lp >>> ((cs.get_decimation).getD (0, 0)).1 ∧
    ((Frame.new_with_padding w h cs lp).planes 1).ypad =
      lp >>> ((cs.get_decimation).getD (0, 0)).2 ∧
    ((Frame.new_with_padding w h cs lp).planes 2).xpad =
      lp >>> ((cs.get_decimation).getD (0, 0)).1 ∧
    ((Frame.new_with_padding w h cs lp).planes 2).ypad =
      lp >>> ((cs.get_decimation).getD (0, 0)).2 ∧
    ((Frame.new_with_padding w h cs lp).planes 1).xpad =
      ((Frame.new_with_padding w h cs lp).planes 2).xpad ∧
    ((Frame.new_with_padding w h cs lp).planes 1).ypad =
      ((Frame.new_with_padding w h cs lp).planes 2).ypad :=
  ⟨rfl, rfl, rfl, rfl, rfl, rfl⟩

/-- Claim C4: in every frame from `new_with_padding`, and in every frame
successfully produced by `new_zerocopy`, the two chroma planes (indices 1
and 2) have identical width, height, decimation and padding. -/
theorem chroma_planes_share_geometry :
    (∀ w h lp : Nat, ∀ cs : ChromaSampling,
      Plane.sameGeometry ((Frame.new_with_padding w h cs lp).planes 1)
        ((Frame.new_with_padding w h cs lp).planes 2)) ∧
    (∀ sb : Nat, ∀ d0 d1 d2 : List Nat, ∀ w h : Nat,
      ∀ cs : ChromaSampling, ∀ f : Frame,
      Frame.new_zerocopy sb d0 d1 d2 w h cs = some f →
        Plane.sameGeometry (f.planes 1) (f.planes 2)) := by
  constructor
  · intro w h lp cs
    exact ⟨rfl, rfl, rfl, rfl, rfl, rfl⟩
  · intro sb d0 d1 d2 w h cs f hf
    rcases (new_zerocopy_eq_some_iff sb d0 d1 d2 w h cs f).mp hf with
      ⟨h0, ⟨hcs, hfm⟩ | ⟨hcs, h1, h2, hfc⟩⟩
    · subst hfm
      exact ⟨rfl, rfl, rfl, rfl, rfl, rfl⟩
    · subst hfc
      refine ⟨rfl, ?_, rfl, rfl, rfl, rfl⟩
      show d1.length / sb / (cs.get_chroma_dimensions w h).1 =
        d2.length / sb / (cs.get_chroma_dimensions w h).1
      rw [h1, h2]

theorem chroma_planes_share_geometry_witness :
    Plane.sameGeometry
      ((zerocopyFrameMono 1 [3, 3, 3, 3] 2).planes 1)
      ((zerocopyFrameMono 1 [3, 3, 3, 3] 2).planes 2) :=
  chroma_planes_share_geometry.2 1 [3, 3, 3, 3] [] [] 2 2
    ChromaSampling.Cs400 (zerocopyFrameMono 1 [3, 3, 3, 3] 2) rfl

lemma chroma_width_pos (cs : ChromaSampling) (w h : Nat)
    (hcs : cs ≠ ChromaSampling.Cs400) (hw : 0 < w) :
    0 < (cs.get_chroma_dimensions w h).1 := by
  cases cs
  case Cs420 =>
    show 0 < (w + 2 - 1) >>> 1
    rw [Nat.shiftRight_eq_div_pow]
    show 0 < (w + 2 - 1) / 2
    omega
  case Cs422 =>
    show 0 < (w + 2 - 1) >>> 1
    rw [Nat.shiftRight_eq_div_pow]
    show 0 < (w + 2 - 1) / 2
    omega
  case Cs444 =>
    show 0 < w + 1 - 1
    omega
  case Cs400 => exact absurd rfl hcs

/-- Claim C6 counterexample: at width 0, height 1, format 4:4:4, sample
width 1 and all-empty buffers, every checked length matches (all are 0),
construction succeeds, yet the luma plane reports height 0 rather than the
given height 1: a zero-width, zero-length buffer cannot encode a nonzero
row count. -/
theorem new_zerocopy_zero_width_wrong_height :
    (Frame.new_zerocopy 1 [] [] [] 0 1 ChromaSampling.Cs444).isSome = true ∧
    (Frame.new_zerocopy 1 [] [] [] 0 1 ChromaSampling.Cs444).map
      (fun f => (f.planes 0).height) ≠ some 1 := by
  decide

/-- Claim C6 (amended): for positive width and positive sample byte width,
`new_zerocopy` applies no block alignment: with correctly sized buffers
under a non-monochrome format the luma plane reports exactly the given
width and height, and the chroma planes report exactly the dimensions
derived from the unaligned width and height. -/
theorem new_zerocopy_reports_unaligned_dims (sb : Nat) (d0 d1 d2 : List Nat)
    (w h : Nat) (cs : ChromaSampling) (f : Frame) (hsb : 0 < sb)
    (hw : 0 < w) (hcs : cs ≠ ChromaSampling.Cs400)
    (hf : Frame.new_zerocopy sb d0 d1 d2 w h cs = some f) :
    (f.planes 0).width = w ∧ (f.planes 0).height = h ∧
    (f.planes 1).width = (cs.get_chroma_dimensions w h).1 ∧
    (f.planes 1).height = (cs.get_chroma_dimensions w h).2 ∧
    (f.planes 2).width = (cs.get_chroma_dimensions w h).1 ∧
    (f.planes 2).height = (cs.get_chroma_dimensions w h).2 := by
  rcases (new_zerocopy_eq_some_iff sb d0 d1 d2 w h cs f).mp hf with
    ⟨h0, ⟨hcs2, -⟩ | ⟨-, h1, h2, hfc⟩⟩
  · exact absurd hcs2 hcs
  · subst hfc
    have hcw := chroma_width_pos cs w h hcs hw
    refine ⟨rfl, ?_, rfl, ?_, rfl, ?_⟩
    · show d0.length / sb / w = h
      rw [h0, Nat.mul_div_cancel _ hsb, Nat.mul_div_cancel_left _ hw]
    · show d1.length / sb / (cs.get_chroma_dimensions w h).1 =
        (cs.get_chroma_dimensions w h).2
      rw [h1, Nat.mul_div_cancel _ hsb, Nat.mul_div_cancel_left _ hcw]
    · show d2.length / sb / (cs.get_chroma_dimensions w h).1 =
        (cs.get_chroma_dimensions w h).2
      rw [h2, Nat.mul_div_cancel _ hsb, Nat.mul_div_cancel_left _ hcw]

theorem new_zerocopy_reports_unaligned_dims_witness :
    ((zerocopyFrameChroma 1 [1, 2, 3, 4, 5, 6] [7, 8] [9, 10] 3 2).planes 0).width = 3 ∧
    ((zerocopyFrameChroma 1 [1, 2, 3, 4, 5, 6] [7, 8] [9, 10] 3 2).planes 0).height = 2 ∧
    ((zerocopyFrameChroma 1 [1, 2, 3, 4, 5, 6] [7, 8] [9, 10] 3 2).planes 1).width =
      (ChromaSampling.Cs420.get_chroma_dimensions 3 2).1 ∧
    ((zerocopyFrameChroma 1 [1, 2, 3, 4, 5, 6] [7, 8] [9, 10] 3 2).planes 1).height =
      (ChromaSampling.Cs420.get_chroma_dimensions 3 2).2 ∧
    ((zerocopyFrameChroma 1 [1, 2, 3, 4, 5, 6] [7, 8] [9, 10] 3 2).planes 2).width =
      (ChromaSampling.Cs420.get_chroma_dimensions 3 2).1 ∧
    ((zerocopyFrameChroma 1 [1, 2, 3, 4, 5, 6] [7, 8] [9, 10] 3 2).planes 2).height =
      (ChromaSampling.Cs420.get_chroma_dimensions 3 2).2 :=
  new_zerocopy_reports_unaligned_dims 1 [1, 2, 3, 4, 5, 6] [7, 8] [9, 10] 3 2
    ChromaSampling.Cs420 (zerocopyFrameChroma 1 [1, 2, 3, 4, 5, 6] [7, 8] [9, 10] 3 2)
    (by decide) (by decide) (by decide) rfl

/-- Claim C7: under the monochrome format, `new_zerocopy` validates only
the luma buffer: for every pair of chroma buffers (of any length,
unconstrained) it succeeds whenever the luma buffer has the expected byte
length, and the resulting chroma planes are zero-size placeholders with
zero width, height, decimation and padding. -/
theorem new_zerocopy_cs400_ignores_chroma (sb : Nat) (d0 d1 d2 : List Nat)
    (w h : Nat) (hlen : d0.length = w * h * sb) :
    Frame.new_zerocopy sb d0 d1 d2 w h ChromaSampling.Cs400 =
      some (zerocopyFrameMono sb d0 w) ∧
    ((zerocopyFrameMono sb d0 w).planes 1).isZeroSize ∧
    ((zerocopyFrameMono sb d0 w).planes 2).isZeroSize := by
  refine ⟨?_, ⟨rfl, rfl, rfl, rfl, rfl, rfl⟩, ⟨rfl, rfl, rfl, rfl, rfl, rfl⟩⟩
  exact (new_zerocopy_eq_some_iff sb d0 d1 d2 w h ChromaSampling.Cs400 _).mpr
    ⟨hlen, Or.inl ⟨rfl, rfl⟩⟩

theorem new_zerocopy_cs400_ignores_chroma_witness :
    Frame.new_zerocopy 2 [0, 0] [5] [] 1 1 ChromaSampling.Cs400 =
      some (zerocopyFrameMono 2 [0, 0] 1) ∧
    ((zerocopyFrameMono 2 [0, 0] 1).planes 1).isZeroSize ∧
    ((zerocopyFrameMono 2 [0, 0] 1).planes 2).isZeroSize :=
  new_zerocopy_cs400_ignores_chroma 2 [0, 0] [5] [] 1 1 (by decide)

/-- Claim C8: the worked example: width 100, height 100, format 4:2:0,
luma_padding 32 gives a 104 by 104 luma plane padded by 32 on both axes,
and two chroma planes of the 4:2:0 dimensions of 104 by 104, namely 52 by
52, with decimation (1,1) and padding 16 on each axis. -/
theorem new_with_padding_example_100x100 :
    ((Frame.new_with_padding 100 100 ChromaSampling.Cs420 32).planes 0).width = 104 ∧
    ((Frame.new_with_padding 100 100 ChromaSampling.Cs420 32).planes 0).height = 104 ∧
    ((Frame.new_with_padding 100 100 ChromaSampling.Cs420 32).planes 0).xpad = 32 ∧
    ((Frame.new_with_padding 100 100 ChromaSampling.Cs420 32).planes 0).ypad = 32 ∧
    ChromaSampling.Cs420.get_chroma_dimensions 104 104 = (52, 52) ∧
    ((Frame.new_with_padding 100 100 ChromaSampling.Cs420 32).planes 1).width = 52 ∧
    ((Frame.new_with_padding 100 100 ChromaSampling.Cs420 32).planes 1).height = 52 ∧
    ((Frame.new_with_padding 100 100 ChromaSampling.Cs420 32).planes 1).xdec = 1 ∧
    ((Frame.new_with_padding 100 100 ChromaSampling.Cs420 32).planes 1).ydec = 1 ∧
    ((Frame.new_with_padding 100 100 ChromaSampling.Cs420 32).planes 1).xpad = 16 ∧
    ((Frame.new_with_padding 100 100 ChromaSampling.Cs420 32).planes 1).ypad = 16 ∧
    ((Frame.new_with_padding 100 100 ChromaSampling.Cs420 32).planes 2).width = 52 ∧
    ((Frame.new_with_padding 100 100 ChromaSampling.Cs420 32).planes 2).height = 52 ∧
    ((Frame.new_with_padding 100 100 ChromaSampling.Cs420 32).planes 2).xdec = 1 ∧
    ((Frame.new_with_padding 100 100 ChromaSampling.Cs420 32).planes 2).ydec = 1 ∧
    ((Frame.new_with_padding 100 100 ChromaSampling.Cs420 32).planes 2).xpad = 16 ∧
    ((Frame.new_with_padding 100 100 ChromaSampling.Cs420 32).planes 2).ypad = 16 := by
  decide

/-- Claim C10: every plane wrapped by a successful `new_zerocopy` call has
row stride exactly equal to its width: the luma plane is wrapped with
stride equal to the given width, and, for non-monochrome formats, each
chroma plane is wrapped with stride equal to the derived chroma width. -/
theorem new_zerocopy_stride_eq_plane_width (sb : Nat) (d0 d1 d2 : List Nat)
    (w h : Nat) (cs : ChromaSampling) (f : Frame)
    (hf : Frame.new_zerocopy sb d0 d1 d2 w h cs = some f) :
    ((f.planes 0).stride = w ∧ (f.planes 0).stride = (f.planes 0).width) ∧
    (cs ≠ ChromaSampling.Cs400 →
      (f.planes 1).stride = (cs.get_chroma_dimensions w h).1 ∧
      (f.planes 1).stride = (f.planes 1).width ∧
      (f.planes 2).stride = (cs.get_chroma_dimensions w h).1 ∧
      (f.planes 2).stride = (f.planes 2).width) := by
  rcases (new_zerocopy_eq_some_iff sb d0 d1 d2 w h cs f).mp hf with
    ⟨h0, ⟨hcs, hfm⟩ | ⟨hcs, h1, h2, hfc⟩⟩
  · subst hfm
    exact ⟨⟨rfl, rfl⟩, fun hne => absurd hcs hne⟩
  · subst hfc
    exact ⟨⟨rfl, rfl⟩, fun _ => ⟨rfl, rfl, rfl, rfl⟩⟩

theorem new_zerocopy_stride_eq_plane_width_witness :
    (((zerocopyFrameChroma 2 (List.replicate 8 0) (List.replicate 2 0)
          (List.replicate 2 0) 2 1).planes 0).stride = 2 ∧
      ((zerocopyFrameChroma 2 (List.replicate 8 0) (List.replicate 2 0)
          (List.replicate 2 0) 2 1).planes 0).stride =
        ((zerocopyFrameChroma 2 (List.replicate 8 0) (List.replicate 2 0)
          (List.replicate 2 0) 2 1).planes 0).width) ∧
    (ChromaSampling.Cs420 ≠ ChromaSampling.Cs400 →
      ((zerocopyFrameChroma 2 (List.replicate 8 0) (List.replicate 2 0)
          (List.replicate 2 0) 2 1).planes 1).stride =
        (ChromaSampling.Cs420.get_chroma_dimensions 2 2).1 ∧
      ((zerocopyFrameChroma 2 (List.replicate 8 0) (List.replicate 2 0)
          (List.replicate 2 0) 2 1).planes 1).stride =
        ((zerocopyFrameChroma 2 (List.replicate 8 0) (List.replicate 2 0)
          (List.replicate 2 0) 2 1).planes 1).width ∧
      ((zerocopyFrameChroma 2 (List.replicate 8 0) (List.replicate 2 0)
          (List.replicate 2 0) 2 1).planes 2).stride =
        (ChromaSampling.Cs420.get_chroma_dimensions 2 2).1 ∧
      ((zerocopyFrameChroma 2 (List.replicate 8 0) (List.replicate 2 0)
          (List.replicate 2 0) 2 1).planes 2).stride =
        ((zerocopyFrameChroma 2 (List.replicate 8 0) (List.replicate 2 0)
          (List.replicate 2 0) 2 1).planes 2).width) :=
  new_zerocopy_stride_eq_plane_width 2 (List.replicate 8 0)
    (List.replicate 2 0) (List.replicate 2 0) 2 2 ChromaSampling.Cs420
    (zerocopyFrameChroma 2 (List.replicate 8 0) (List.replicate 2 0)
      (List.replicate 2 0) 2 1) rfl

end VFrame
